import Mathlib

set_option maxHeartbeats 1000000

/-!
Shallow embedding of the client-side resource-state synchronization core of
the Railway station dashboard (src/src/MainApp.jsx): identity normalization,
resource pairing derivation, the fetch sequencer, the optimistic mutation
executor with snapshot rollback, the per-operation optimistic transforms,
and the push-event reconciler.
-/

/-- JsVal models the JavaScript values that train identifiers range over in
the loosely-typed records: undefined, null, numbers and strings. -/
inductive JsVal where
  | undef
  | null
  | num (n : Int)
  | str (s : String)
deriving DecidableEq, Repr

/-- jsTruthy models JavaScript truthiness on JsVal (undefined, null, 0 and
the empty string are falsy). -/
def jsTruthy : JsVal → Bool
  | .undef => false
  | .null => false
  | .num n => n != 0
  | .str s => s != ""

/-- jsToString models JavaScript string conversion as used in template
literals. -/
def jsToString : JsVal → String
  | .undef => "undefined"
  | .null => "null"
  | .num n => toString n
  | .str s => s

/-- nullish is true exactly on undefined and null, the values skipped by
the JavaScript ?? operator. -/
def nullish : JsVal → Bool
  | .undef => true
  | .null => true
  | .num _ => false
  | .str _ => false

/-- jsqq models the JavaScript ?? operator on JsVal. -/
def jsqq (a b : JsVal) : JsVal := if nullish a then b else a

/-- jsOrV models the JavaScript || operator on JsVal. -/
def jsOrV (a b : JsVal) : JsVal := if jsTruthy a then a else b

/-- jsOr models the JavaScript || operator on optional strings, where none
stands for undefined or null and the empty string is falsy. -/
def jsOr : Option String → Option String → Option String
  | some s, b => if s = "" then b else some s
  | none, b => b

/-- jsOrD models the JavaScript || operator on an optional string whose
right operand is a known string, yielding a plain string. -/
def jsOrD : Option String → String → String
  | some s, d => if s = "" then d else s
  | none, d => d

/-- jsqqB models the JavaScript ?? operator on optional booleans. -/
def jsqqB : Option Bool → Option Bool → Option Bool
  | some b, _ => some b
  | none, c => c

/-- Train mirrors the loosely-typed train records held in the arriving
roster and the waiting list, with one field per JavaScript property that
MainApp.jsx reads or writes (trainNoUpper stands for the source-system
property written as TRAIN NO in the source). -/
structure Train where
  trainNo : JsVal := .undef
  train_no : JsVal := .undef
  trainNoUpper : JsVal := .undef
  name : Option String := none
  incomingLine : Option String := none
  incoming_line : Option String := none
  actualArrival : Option String := none
  actual_arrival : Option String := none
  isTerminating : Option Bool := none
  ISTERMINATING : Option Bool := none
  enqueued_at : Option String := none
  scheduled_arrival : Option String := none
  scheduled_departure : Option String := none
deriving DecidableEq, Repr

/-- TrainDetails mirrors the occupant record constructed by
buildTrainDetails and stored on an occupied platform; linkedPlatformId and
isPrimary are the pairing metadata attached through the extras argument
(none / isPrimary none when the extras object carries no pairing fields). -/
structure TrainDetails where
  trainNo : JsVal
  name : String
  incomingLine : Option String
  incoming_line : Option String
  actualArrival : Option String
  isTerminating : Bool
  linkedPlatformId : Option String
  isPrimary : Option Bool
deriving DecidableEq, Repr

/-- Platform mirrors a resource (platform or track) record of the local
state in MainApp.jsx. -/
structure Platform where
  id : String
  isOccupied : Bool := false
  isUnderMaintenance : Bool := false
  trainDetails : Option TrainDetails := none
  actualArrival : Option String := none
deriving DecidableEq, Repr

/-- PairMeta mirrors an entry of the linkedMeta map built by
handleAssignPlatform. -/
structure PairMeta where
  linkedPlatformId : Option String
  isPrimary : Bool
deriving DecidableEq, Repr

/-- Collections bundles the three top-level collections that the optimistic
mutation executor snapshots and rolls back. -/
structure Collections where
  platforms : List Platform
  arrivingTrains : List Train
  waitingList : List Train
deriving DecidableEq, Repr

/-- normalizeTrainNo embeds the arrow function at MainApp.jsx line 30:
undefined and null map to the empty string, everything else is coerced
with String(value). -/
def normalizeTrainNo : JsVal → String
  | .undef => ""
  | .null => ""
  | .num n => toString n
  | .str s => s

/-- extractTrainNo embeds MainApp.jsx line 31: the first non-nullish of
trainNo, train_no and the TRAIN NO property, normalized. -/
def extractTrainNo (t : Train) : String :=
  normalizeTrainNo (jsqq t.trainNo (jsqq t.train_no t.trainNoUpper))

/-- matchTrainNumber embeds MainApp.jsx line 32: strict equality of the
entity's extracted train number and the normalized target. -/
def matchTrainNumber (t : Train) (target : JsVal) : Bool :=
  extractTrainNo t == normalizeTrainNo target

/-- toIdArray embeds MainApp.jsx line 33 applied to an id list: falsy
(empty) ids are filtered out. -/
def toIdArray (ids : List String) : List String :=
  ids.filter (fun s => s != "")

/-- lookupTrainByNumber embeds MainApp.jsx lines 152 to 158: an empty
target never matches; the arriving roster is searched before the waiting
list. -/
def lookupTrainByNumber (c : Collections) (trainNo : JsVal) : Option Train :=
  let target := normalizeTrainNo trainNo
  if target = "" then none
  else
    match c.arrivingTrains.find? (fun t => extractTrainNo t == target) with
    | some t => some t
    | none => c.waitingList.find? (fun t => extractTrainNo t == target)

/-- Overrides mirrors the overrides object accepted by buildTrainDetails. -/
structure Overrides where
  incomingLine : Option String := none
  incoming_line : Option String := none
  actualArrival : Option String := none
  actual_arrival : Option String := none
  trainName : Option String := none
  trainNo : JsVal := .undef
  isTerminating : Option Bool := none
deriving Repr

/-- emptyTrainRecord models the empty-object fallback in buildTrainDetails
(every property access yields undefined). -/
def emptyTrainRecord : Train := {}

/-- buildTrainDetails embeds MainApp.jsx lines 160 to 175: occupant record
construction preferring explicit overrides, then the cached roster or
waiting-list record, then a synthetic placeholder name. -/
def buildTrainDetails (c : Collections) (trainNo : JsVal) (ov : Overrides)
    (extras : Option PairMeta) : TrainDetails :=
  let fb : Train := (lookupTrainByNumber c trainNo).getD emptyTrainRecord
  let resolvedIncoming :=
    jsOr ov.incomingLine (jsOr ov.incoming_line (jsOr fb.incoming_line fb.incomingLine))
  let resolvedArrival :=
    jsOr ov.actualArrival (jsOr ov.actual_arrival (jsOr fb.actualArrival fb.actual_arrival))
  let resolvedName :=
    jsOrD (jsOr ov.trainName fb.name)
      (if jsTruthy trainNo then "Train " ++ jsToString trainNo else "Train")
  let terminating :=
    (jsqqB ov.isTerminating (jsqqB fb.isTerminating fb.ISTERMINATING)).getD false
  { trainNo := jsOrV trainNo (jsOrV ov.trainNo (jsOrV fb.trainNo
      (jsOrV fb.train_no (.str resolvedName)))),
    name := resolvedName,
    incomingLine := resolvedIncoming,
    incoming_line := resolvedIncoming,
    actualArrival := resolvedArrival,
    isTerminating := terminating,
    linkedPlatformId := match extras with | some m => m.linkedPlatformId | none => none,
    isPrimary := extras.map (fun m => m.isPrimary) }

/-- jsPartnerOf embeds the partner search in MainApp.jsx line 235: the
first id in the list different from the given one, with the trailing
truthiness coercion of partner-or-null. -/
def jsPartnerOf (ids : List String) (pid : String) : Option String :=
  match ids.find? (fun o => o != pid) with
  | some p => if p = "" then none else some p
  | none => none

/-- linkedMetaWrite embeds the forEach loop of MainApp.jsx lines 234 to 237
writing into the linkedMeta map, carrying the running index; a later write
to the same key overrides an earlier one, as with Map.set. -/
def linkedMetaWrite (allIds : List String) :
    List String → Nat → (String → Option PairMeta) → String → Option PairMeta
  | [], _, m => m
  | pid :: rest, i, m =>
      linkedMetaWrite allIds rest (i + 1)
        (fun k => if k = pid then some ⟨jsPartnerOf allIds pid, i == 0⟩ else m k)

/-- buildLinkedMeta embeds MainApp.jsx lines 232 to 240: the linkedMeta map
as a lookup function, filled only when there are two or more ids, or with
one primary unlinked entry for a single id. -/
def buildLinkedMeta (ids : List String) : String → Option PairMeta :=
  if 1 < ids.length then linkedMetaWrite ids ids 0 (fun _ => none)
  else
    match ids with
    | [only] => fun k => if k = only then some ⟨none, true⟩ else none
    | _ => fun _ => none

/-- applyPlatformChanges embeds MainApp.jsx lines 177 to 182: the updater
is applied to exactly the platforms whose id is among the (truthy) target
ids, and nothing happens when no target id remains. -/
def applyPlatformChanges (targetIds : List String) (updater : Platform → Platform)
    (ps : List Platform) : List Platform :=
  let ids := toIdArray targetIds
  if ids.isEmpty then ps
  else ps.map (fun p => if p.id ∈ ids then updater p else p)

/-- assignPlatformOptimistic embeds the optimistic closure of
handleAssignPlatform, MainApp.jsx lines 227 to 259; now stands for the
current wall-clock already formatted as localized hour:minute. -/
def assignPlatformOptimistic (trainNo : JsVal) (platformIds : List String)
    (actualArrival incomingLine : Option String) (now : String)
    (c : Collections) : Collections :=
  let ids := toIdArray platformIds
  let arrivalTime := jsOrD actualArrival now
  let meta := buildLinkedMeta ids
  { platforms :=
      applyPlatformChanges ids (fun p =>
        let m := (meta p.id).getD ⟨none, true⟩
        { p with
          isOccupied := true,
          isUnderMaintenance := false,
          trainDetails := some (buildTrainDetails c trainNo
            { actualArrival := some arrivalTime, incomingLine := incomingLine }
            (some m)),
          actualArrival := some arrivalTime }) c.platforms,
    arrivingTrains := c.arrivingTrains.filter (fun t => !(matchTrainNumber t trainNo)),
    waitingList := c.waitingList.filter (fun t => !(matchTrainNumber t trainNo)) }

/-- assignFreightToPlatformOptimistic embeds the optimistic closure of
handleAssignFreightToPlatform, MainApp.jsx lines 261 to 279. -/
def assignFreightToPlatformOptimistic (platformId : String)
    (incomingLine trainName : Option String) (c : Collections) : Collections :=
  let placeholder := jsOrD trainName ("Freight-" ++ platformId)
  let td := buildTrainDetails c (.str placeholder)
    { trainName := some (jsOrD trainName "Freight Consist"), incomingLine := incomingLine }
    none
  { c with platforms :=
      applyPlatformChanges [platformId] (fun p =>
        { p with isOccupied := true, isUnderMaintenance := false,
                 trainDetails := some td, actualArrival := none }) c.platforms }

/-- assignFreightToTrackOptimistic embeds the optimistic closure of
handleAssignFreightToTrack, MainApp.jsx lines 281 to 296. -/
def assignFreightToTrackOptimistic (trackId : String)
    (incomingLine trainName : Option String) (c : Collections) : Collections :=
  let placeholder := jsOrD trainName ("Freight-" ++ trackId)
  let td := buildTrainDetails c (.str placeholder)
    { trainName := some (jsOrD trainName ("Freight @ " ++ trackId)),
      incomingLine := incomingLine }
    none
  { c with platforms :=
      applyPlatformChanges [trackId] (fun p =>
        { p with isOccupied := true, isUnderMaintenance := false,
                 trainDetails := some td, actualArrival := none }) c.platforms }

/-- unassignPlatformOptimistic embeds the optimistic closure of
handleUnassignPlatform, MainApp.jsx lines 220 to 225. -/
def unassignPlatformOptimistic (platformId : String) (c : Collections) : Collections :=
  let ps := applyPlatformChanges [platformId] (fun p =>
    { p with isOccupied := false, trainDetails := none, actualArrival := none }) c.platforms
  { c with platforms := ps }

/-- mkWaitingEntry embeds the waiting-list entry construction of
handleAddToWaitingList, MainApp.jsx lines 304 to 316; nowIso is the fresh
enqueue timestamp and nowHm the current wall-clock hour:minute. -/
def mkWaitingEntry (trainNo : JsVal) (incomingLine actualArrival : Option String)
    (metadata : Option Train) (nowIso nowHm : String) (c : Collections) : Train :=
  let ct : Train :=
    (match metadata with
     | some m => some m
     | none => lookupTrainByNumber c trainNo).getD emptyTrainRecord
  let arrivalDisplay :=
    jsOrD actualArrival (jsOrD ct.actualArrival (jsOrD ct.actual_arrival nowHm))
  { ct with
    trainNo := trainNo,
    name := some (jsOrD ct.name ("Train " ++ jsToString trainNo)),
    incomingLine := jsOr incomingLine (jsOr ct.incomingLine ct.incoming_line),
    incoming_line := jsOr incomingLine ct.incoming_line,
    actualArrival := some arrivalDisplay,
    enqueued_at := some nowIso }

/-- addToWaitingListOptimistic embeds the optimistic closure of
handleAddToWaitingList, MainApp.jsx lines 298 to 326. -/
def addToWaitingListOptimistic (trainNo : JsVal)
    (incomingLine actualArrival : Option String) (metadata : Option Train)
    (nowIso nowHm : String) (c : Collections) : Collections :=
  let we := mkWaitingEntry trainNo incomingLine actualArrival metadata nowIso nowHm c
  { platforms := c.platforms,
    arrivingTrains := c.arrivingTrains.filter (fun t => !(matchTrainNumber t trainNo)),
    waitingList :=
      if c.waitingList.any (fun t => matchTrainNumber t trainNo) then
        c.waitingList.map (fun t => if matchTrainNumber t trainNo then we else t)
      else c.waitingList ++ [we] }

/-- removeFromWaitingListOptimistic embeds the optimistic closure of
handleRemoveFromWaitingList, MainApp.jsx lines 328 to 333. -/
def removeFromWaitingListOptimistic (trainNo : JsVal) (c : Collections) : Collections :=
  { c with waitingList := c.waitingList.filter (fun t => !(matchTrainNumber t trainNo)) }

/-- sameTrainPartner embeds the partner search of MainApp.jsx line 348:
the first other occupied platform whose occupant carries the same trainNo
value. -/
def sameTrainPartner (ps : List Platform) (platformId : String)
    (td : TrainDetails) : Option Platform :=
  ps.find? (fun p =>
    p.id != platformId && p.isOccupied &&
    (match p.trainDetails with
     | some td2 => td2.trainNo == td.trainNo
     | none => false))

/-- resolveLinkedDepartureIds embeds MainApp.jsx lines 335 to 353: the set
of platform ids to clear on departure, via the stored pairing link or a
same-train occupant search. -/
def resolveLinkedDepartureIds (ps : List Platform) (platformId : String) : List String :=
  match ps.find? (fun p => p.id == platformId) with
  | none => [platformId]
  | some primary =>
    if !primary.isOccupied then [platformId]
    else
      match primary.trainDetails with
      | none => [platformId]
      | some td =>
        match jsOr td.linkedPlatformId none with
        | some linkedId => [platformId, linkedId]
        | none =>
          if !(jsTruthy td.trainNo) then [platformId]
          else
            match sameTrainPartner ps platformId td with
            | some partner => [platformId, partner.id]
            | none => [platformId]

/-- departTrainOptimistic embeds the optimistic closure of
handleDepartTrain, MainApp.jsx lines 355 to 363. -/
def departTrainOptimistic (platformId : String) (c : Collections) : Collections :=
  let idsToClear := resolveLinkedDepartureIds c.platforms platformId
  let ps := applyPlatformChanges idsToClear (fun p =>
    { p with isOccupied := false, trainDetails := none, actualArrival := none }) c.platforms
  { c with platforms := ps }

/-- toggleMaintenanceOptimistic embeds the optimistic closure of
handleToggleMaintenance, MainApp.jsx lines 365 to 378. -/
def toggleMaintenanceOptimistic (platformId : String) (c : Collections) : Collections :=
  let ps := applyPlatformChanges [platformId] (fun p =>
    let nextMaintenance := !p.isUnderMaintenance
    { p with
      isUnderMaintenance := nextMaintenance,
      isOccupied := if nextMaintenance then false else p.isOccupied,
      trainDetails := if nextMaintenance then none else p.trainDetails }) c.platforms
  { c with platforms := ps }

/-- TrainRow mirrors the raw row accepted by handleAddTrain (properties
written in the source-system casing in MainApp.jsx lines 380 to 397). -/
structure TrainRow where
  trainNoUpper : JsVal := .undef
  trainNameUpper : Option String := none
  arrivalAtKgp : Option String := none
  arrivalPlain : Option String := none
  departureFromKgp : Option String := none
  departurePlain : Option String := none
  terminatingUpper : Option Bool := none
deriving Repr

/-- addTrainOptimistic embeds the optimistic closure of handleAddTrain,
MainApp.jsx lines 380 to 397. -/
def addTrainOptimistic (row : TrainRow) (c : Collections) : Collections :=
  let normalized : Train :=
    { trainNo := row.trainNoUpper,
      name := row.trainNameUpper,
      scheduled_arrival := some (jsOrD row.arrivalAtKgp (jsOrD row.arrivalPlain "")),
      scheduled_departure := some (jsOrD row.departureFromKgp (jsOrD row.departurePlain "")),
      ISTERMINATING := row.terminatingUpper }
  let filtered :=
    if jsTruthy normalized.trainNo then
      c.arrivingTrains.filter (fun t => !(matchTrainNumber t normalized.trainNo))
    else c.arrivingTrains
  { c with arrivingTrains := normalized :: filtered }

/-- deleteTrainOptimistic embeds the optimistic closure of
handleDeleteTrain, MainApp.jsx lines 399 to 404. -/
def deleteTrainOptimistic (trainNo : JsVal) (c : Collections) : Collections :=
  { c with arrivingTrains := c.arrivingTrains.filter (fun t => !(matchTrainNumber t trainNo)) }

/-- RespBody mirrors the parsed JSON body of a mutation command response. -/
structure RespBody where
  error : Option String := none
  message : Option String := none
deriving DecidableEq, Repr

/-- BodyParse distinguishes a body that parsed from one where
response.json() threw (a malformed body). -/
inductive BodyParse where
  | failed (msg : String)
  | parsed (body : RespBody)
deriving DecidableEq, Repr

/-- RemoteResult models the outcome of the fetch of a mutation command:
network failure, or a response with an ok flag and a body parse result. -/
inductive RemoteResult where
  | netFail (msg : String)
  | responded (ok : Bool) (body : BodyParse)
deriving DecidableEq, Repr

/-- isRemoteSuccess holds exactly when the response was 2xx with a body
that parsed, the only path on which handleApiCall succeeds. -/
def isRemoteSuccess : RemoteResult → Bool
  | .responded true (.parsed _) => true
  | _ => false

/-- TransformRun models one execution of an optimistic update closure:
either it ran to completion, or it threw after having applied some of its
state changes (stateAtThrow is the state at the moment of the throw). -/
inductive TransformRun where
  | ok (next : Collections)
  | thrown (stateAtThrow : Collections)
deriving DecidableEq, Repr

/-- runOptimistic embeds the try/catch around optimisticUpdate() in
MainApp.jsx lines 190 to 196: a thrown exception is caught and logged, and
execution continues with whatever state changes had already been applied. -/
def runOptimistic (f : Collections → TransformRun) (c : Collections) : Collections :=
  match f c with
  | .ok next => next
  | .thrown s => s

/-- Notification models the user-visible toast kinds. -/
inductive Notification where
  | success (msg : String)
  | error (msg : String)
  | info (msg : String)
  | warning (msg : String)
deriving DecidableEq, Repr

/-- ApiOutcome is what one run of handleApiCall produces: the final three
collections, the notification emitted, the boolean returned to the caller,
and whether a full authoritative refetch was triggered. -/
structure ApiOutcome where
  final : Collections
  notification : Notification
  returnedTrue : Bool
  refetchTriggered : Bool
deriving DecidableEq, Repr

/-- handleApiCall embeds MainApp.jsx lines 184 to 214: snapshot the three
collections when an optimistic update is supplied, run it under try/catch,
issue the remote command, and on any failure restore the snapshot and emit
an error notification (the server-supplied reason when the body parsed, a
generic fallback otherwise). -/
def handleApiCall (optimisticUpdate : Option (Collections → TransformRun))
    (remote : RemoteResult) (successMsg : String) (c : Collections) : ApiOutcome :=
  let snapshot : Option Collections := if optimisticUpdate.isSome then some c else none
  let c1 := match optimisticUpdate with
    | some f => runOptimistic f c
    | none => c
  match remote with
  | .responded true (.parsed body) =>
      { final := c1, notification := .success (jsOrD body.message successMsg),
        returnedTrue := true, refetchTriggered := true }
  | .netFail m =>
      { final := snapshot.getD c1, notification := .error m,
        returnedTrue := false, refetchTriggered := false }
  | .responded _ (.failed pm) =>
      { final := snapshot.getD c1, notification := .error pm,
        returnedTrue := false, refetchTriggered := false }
  | .responded false (.parsed body) =>
      { final := snapshot.getD c1,
        notification := .error (jsOrD body.error "An unknown error occurred."),
        returnedTrue := false, refetchTriggered := false }

/-- StationBody mirrors the parsed JSON body of the full-state fetch. -/
structure StationBody where
  error : Option String := none
  platforms : Option (List Platform) := none
  arrivingTrains : Option (List Train) := none
  waitingList : Option (List Train) := none
deriving DecidableEq, Repr

/-- FetchBodyParse distinguishes a station-data body that parsed from one
where response.json() threw. -/
inductive FetchBodyParse where
  | failed (msg : String)
  | parsed (body : StationBody)
deriving DecidableEq, Repr

/-- FetchResponse models the outcome of one full-state fetch request. -/
inductive FetchResponse where
  | netFail (msg : String)
  | responded (ok : Bool) (status : Nat) (body : FetchBodyParse)
deriving DecidableEq, Repr

/-- Suggestion mirrors the automated suggestion payload tracked in the
autoSuggestion state. -/
structure Suggestion where
  suggestion_id : String
  trainNo : String := ""
  trainName : String := ""
  suggestedPlatformIds : List String := []
deriving DecidableEq, Repr

/-- AcceptedPayload mirrors the waiting_suggestion_accepted event payload. -/
structure AcceptedPayload where
  trainNo : String := ""
  platforms : List String := []
deriving DecidableEq, Repr

/-- AppState bundles the pieces of MainApp state that the fetch sequencer
and the event reconciler touch: the fetch epoch counter, the three
collections, the error state, the emitted toasts, and the tracked pending
suggestion. -/
structure AppState where
  latestFetchId : Nat := 0
  collections : Collections := ⟨[], [], []⟩
  errorMsg : Option String := none
  toasts : List Notification := []
  autoSuggestion : Option Suggestion := none
deriving DecidableEq, Repr

/-- beginFetch embeds MainApp.jsx lines 55 to 56: a new fetch takes the
next epoch value and advances the latest-fetch counter. -/
def beginFetch (s : AppState) : Nat × AppState :=
  (s.latestFetchId + 1, { s with latestFetchId := s.latestFetchId + 1 })

/-- fetchOutcome embeds the body of the try block in fetchStationData,
MainApp.jsx lines 58 to 61: a non-ok response throws an HTTP error with
the status, a body that fails to parse throws, and a parsed body with a
truthy error field throws that error. -/
def fetchOutcome : FetchResponse → Except String StationBody
  | .netFail m => .error m
  | .responded false status _ => .error ("HTTP error! status: " ++ toString status)
  | .responded true _ (.failed pm) => .error pm
  | .responded true _ (.parsed b) =>
      match b.error with
      | some e => if e != "" then .error e else .ok b
      | none => .ok b

/-- completeFetch embeds MainApp.jsx lines 62 to 72: a successful response
is committed only when its epoch is still the latest, and a failure sets
the error state and raises an error toast only when its epoch is still the
latest; a stale response of either kind leaves the state untouched. -/
def completeFetch (fetchId : Nat) (r : FetchResponse) (s : AppState) : AppState :=
  match fetchOutcome r with
  | .ok b =>
      if fetchId ≠ s.latestFetchId then s
      else
        { s with collections :=
            { platforms := b.platforms.getD [],
              arrivingTrains := b.arrivingTrains.getD [],
              waitingList := b.waitingList.getD [] } }
  | .error m =>
      if fetchId = s.latestFetchId then
        { s with errorMsg := some m,
                 toasts := s.toasts ++ [.error ("Failed to load station data: " ++ m)] }
      else s

/-- handleSuggestionOffered embeds the waiting_suggestion handler,
MainApp.jsx lines 105 to 111: the tracked suggestion is replaced and an
informational toast is raised. -/
def handleSuggestionOffered (data : Suggestion) (s : AppState) : AppState :=
  { s with autoSuggestion := some data,
           toasts := s.toasts ++ [.info ("Suggestion: Train " ++ data.trainNo ++ " → "
             ++ String.intercalate ", " data.suggestedPlatformIds)] }

/-- handleSuggestionExpired embeds the waiting_suggestion_expired handler,
MainApp.jsx lines 113 to 121: the tracked suggestion is cleared, with a
warning toast, only when the event's suggestion id matches it. -/
def handleSuggestionExpired (suggestionId : String) (s : AppState) : AppState :=
  match s.autoSuggestion with
  | some sug =>
      if suggestionId = sug.suggestion_id then
        { s with autoSuggestion := none,
                 toasts := s.toasts ++ [.warning "Suggestion expired"] }
      else s
  | none => s

/-- handleSuggestionAccepted embeds the waiting_suggestion_accepted
handler, MainApp.jsx lines 123 to 130: a success toast is raised, the
tracked suggestion is cleared unconditionally, and a full authoritative
refetch is initiated. -/
def handleSuggestionAccepted (data : AcceptedPayload) (s : AppState) : AppState :=
  let s1 := { s with
    toasts := s.toasts ++ [.success ("Suggestion accepted: Train " ++ data.trainNo
      ++ " assigned to " ++ String.intercalate ", " data.platforms)],
    autoSuggestion := none }
  (beginFetch s1).2

/-- maintenanceInvariant states that a platform under maintenance is never
simultaneously occupied. -/
def maintenanceInvariant (ps : List Platform) : Prop :=
  ∀ p ∈ ps, p.isUnderMaintenance = true → p.isOccupied = false

/-- toIdArray_idem records that filtering already-filtered ids is a no-op. -/
lemma toIdArray_idem (ids : List String) : toIdArray (toIdArray ids) = toIdArray ids := by
  simp [toIdArray, List.filter_filter]

/-- mem_applyPlatformChanges_target: applying platform changes sends a
platform whose id is among the (truthy) target ids to its updated form. -/
lemma mem_applyPlatformChanges_target (targetIds : List String)
    (u : Platform → Platform) (ps : List Platform) (p : Platform)
    (hp : p ∈ ps) (hid : p.id ∈ toIdArray targetIds) :
    u p ∈ applyPlatformChanges targetIds u ps := by
  have hne : (toIdArray targetIds).isEmpty = false := by
    cases h : toIdArray targetIds with
    | nil => rw [h] at hid; cases hid
    | cons a l => rfl
  simp only [applyPlatformChanges, hne, Bool.false_eq_true, if_false]
  exact List.mem_map.mpr ⟨p, hp, by simp [hid]⟩

/-- mem_applyPlatformChanges_other: a platform whose id is not targeted
survives applyPlatformChanges unchanged. -/
lemma mem_applyPlatformChanges_other (targetIds : List String)
    (u : Platform → Platform) (ps : List Platform) (p : Platform)
    (hp : p ∈ ps) (hid : p.id ∉ toIdArray targetIds) :
    p ∈ applyPlatformChanges targetIds u ps := by
  simp only [applyPlatformChanges]
  cases h : (toIdArray targetIds).isEmpty with
  | true => simpa using hp
  | false =>
    simp only [Bool.false_eq_true, if_false]
    exact List.mem_map.mpr ⟨p, hp, by simp [hid]⟩

/-- applyPlatformChanges_pres: a pointwise property that the updater
establishes unconditionally is preserved by applyPlatformChanges. -/
lemma applyPlatformChanges_pres (P : Platform → Prop) (targetIds : List String)
    (u : Platform → Platform) (ps : List Platform)
    (hps : ∀ p ∈ ps, P p) (hu : ∀ p, P (u p)) :
    ∀ q ∈ applyPlatformChanges targetIds u ps, P q := by
  intro q hq
  simp only [applyPlatformChanges] at hq
  split at hq
  · exact hps q hq
  · obtain ⟨p, hp, hpq⟩ := List.mem_map.mp hq
    by_cases hin : p.id ∈ toIdArray targetIds
    · rw [if_pos hin] at hpq; exact hpq ▸ hu p
    · rw [if_neg hin] at hpq; exact hpq ▸ hps p hp

/-- completeFetch_latestFetchId: completing a fetch never moves the epoch
counter. -/
lemma completeFetch_latestFetchId (fetchId : Nat) (r : FetchResponse) (s : AppState) :
    (completeFetch fetchId r s).latestFetchId = s.latestFetchId := by
  unfold completeFetch
  cases fetchOutcome r with
  | ok b => dsimp only; split <;> rfl
  | error m => dsimp only; split <;> rfl

/-- completeFetch_stale: a fetch whose epoch is no longer current is
discarded wholesale, with no state change and no toast. -/
lemma completeFetch_stale (fetchId : Nat) (r : FetchResponse) (s : AppState)
    (h : fetchId ≠ s.latestFetchId) : completeFetch fetchId r s = s := by
  unfold completeFetch
  cases fetchOutcome r with
  | ok b => simp [h]
  | error m => simp [h]

/-- C1: for two full-state fetches where fetch A is initiated before fetch
B, committing B's response and then receiving A's response leaves the
state exactly as B left it (no collection change, no error state, no
toast), and in general a fetch response is applied only when no newer
fetch has been initiated by the time it completes; B's successful response
is committed wholesale into the three collections. -/
theorem fetch_sequencing_spec (s0 : AppState) (rA rB : FetchResponse) :
    completeFetch (beginFetch s0).1 rA
        (completeFetch (beginFetch (beginFetch s0).2).1 rB (beginFetch (beginFetch s0).2).2)
      = completeFetch (beginFetch (beginFetch s0).2).1 rB (beginFetch (beginFetch s0).2).2 ∧
    (∀ b, fetchOutcome rB = Except.ok b →
      (completeFetch (beginFetch (beginFetch s0).2).1 rB
          (beginFetch (beginFetch s0).2).2).collections
        = ⟨b.platforms.getD [], b.arrivingTrains.getD [], b.waitingList.getD []⟩) ∧
    (∀ (fid : Nat) (r : FetchResponse) (s : AppState),
      fid ≠ s.latestFetchId → completeFetch fid r s = s) := by
  refine ⟨?_, ?_, fun fid r s h => completeFetch_stale fid r s h⟩
  · apply completeFetch_stale
    rw [completeFetch_latestFetchId]
    show s0.latestFetchId + 1 ≠ s0.latestFetchId + 1 + 1
    omega
  · intro b hb
    unfold completeFetch
    rw [hb]
    simp [beginFetch]

/-- fetch_sequencing_witness exercises fetch_sequencing_spec on a concrete
state: a stale response arriving after a newer committed one is a no-op,
the newer success is committed, and a stale epoch is always discarded. -/
theorem fetch_sequencing_witness :
    completeFetch (beginFetch ({} : AppState)).1 (.netFail "late")
        (completeFetch (beginFetch (beginFetch ({} : AppState)).2).1
          (.responded true 200 (.parsed {})) (beginFetch (beginFetch ({} : AppState)).2).2)
      = completeFetch (beginFetch (beginFetch ({} : AppState)).2).1
          (.responded true 200 (.parsed {})) (beginFetch (beginFetch ({} : AppState)).2).2 ∧
    (completeFetch (beginFetch (beginFetch ({} : AppState)).2).1
        (.responded true 200 (.parsed {})) (beginFetch (beginFetch ({} : AppState)).2).2).collections
      = ⟨[], [], []⟩ ∧
    completeFetch 1 (.netFail "late") ({ latestFetchId := 7 } : AppState)
      = { latestFetchId := 7 } := by
  have h := fetch_sequencing_spec ({} : AppState) (.netFail "late")
    (.responded true 200 (.parsed {}))
  exact ⟨h.1, h.2.1 {} rfl, h.2.2 1 (.netFail "late") { latestFetchId := 7 } (by decide)⟩

/-- C2: for every mutation run with an optimistic transform, any remote
failure (network failure, non-2xx response, malformed body) restores the
three collections exactly to the snapshot captured before the transform
ran, returns false, and emits a failure notification carrying the
server-supplied reason when the body parsed and a fallback message
otherwise. -/
theorem optimistic_rollback_spec (f : Collections → TransformRun) (c : Collections)
    (remote : RemoteResult) (successMsg : String)
    (hfail : isRemoteSuccess remote = false) :
    (handleApiCall (some f) remote successMsg c).final = c ∧
    (handleApiCall (some f) remote successMsg c).returnedTrue = false ∧
    (handleApiCall (some f) remote successMsg c).refetchTriggered = false ∧
    (∀ m, remote = .netFail m →
      (handleApiCall (some f) remote successMsg c).notification = .error m) ∧
    (∀ ok pm, remote = .responded ok (.failed pm) →
      (handleApiCall (some f) remote successMsg c).notification = .error pm) ∧
    (∀ body, remote = .responded false (.parsed body) →
      (handleApiCall (some f) remote successMsg c).notification
        = .error (jsOrD body.error "An unknown error occurred.")) := by
  cases remote with
  | netFail m => simp [handleApiCall]
  | responded ok body =>
    cases body with
    | failed pm => simp [handleApiCall]
    | parsed b =>
      cases ok with
      | false => simp [handleApiCall]
      | true => simp [isRemoteSuccess] at hfail

/-- optimistic_rollback_witness exercises optimistic_rollback_spec on the
spec's scenario: resource P1 available, assign T1 to P1 optimistically,
then the remote command fails with a server-supplied reason; the final
state is exactly the pre-call snapshot and the reason is surfaced. -/
theorem optimistic_rollback_witness :
    (handleApiCall
        (some fun s => TransformRun.ok (assignPlatformOptimistic (.str "T1") ["P1"] none none "10:00" s))
        (.responded false (.parsed { error := some "Platform occupied" })) "ok"
        ⟨[{ id := "P1" }], [], []⟩).final = ⟨[{ id := "P1" }], [], []⟩ ∧
    (handleApiCall
        (some fun s => TransformRun.ok (assignPlatformOptimistic (.str "T1") ["P1"] none none "10:00" s))
        (.responded false (.parsed { error := some "Platform occupied" })) "ok"
        ⟨[{ id := "P1" }], [], []⟩).notification = .error "Platform occupied" := by
  have h := optimistic_rollback_spec
    (fun s => TransformRun.ok (assignPlatformOptimistic (.str "T1") ["P1"] none none "10:00" s))
    ⟨[{ id := "P1" }], [], []⟩
    (.responded false (.parsed { error := some "Platform occupied" })) "ok" (by decide)
  refine ⟨h.1, ?_⟩
  have h5 := h.2.2.2.2.2 { error := some "Platform occupied" } rfl
  simpa [jsOrD] using h5

/-- C10: an optimistic transform that throws is caught inside the
executor: the run behaves exactly as if the transform had completed with
the state it had reached at the throw, so the remote command is still
issued (a success still yields the success notification, the partly
transformed state and the authoritative refetch), and a remote failure
still rolls the collections back to the snapshot taken before the
transform ran. -/
theorem optimistic_throw_containment_spec (f g : Collections → TransformRun)
    (c p : Collections) (remote : RemoteResult) (successMsg : String)
    (hf : f c = .thrown p) (hg : g c = .ok p) :
    handleApiCall (some f) remote successMsg c = handleApiCall (some g) remote successMsg c ∧
    (isRemoteSuccess remote = false → (handleApiCall (some f) remote successMsg c).final = c) ∧
    (isRemoteSuccess remote = true →
      (handleApiCall (some f) remote successMsg c).final = p ∧
      (handleApiCall (some f) remote successMsg c).refetchTriggered = true) := by
  have hrun : runOptimistic f c = runOptimistic g c := by
    simp [runOptimistic, hf, hg]
  have hp : runOptimistic f c = p := by simp [runOptimistic, hf]
  cases remote with
  | netFail m => simp [handleApiCall, hrun, isRemoteSuccess]
  | responded ok body =>
    cases body with
    | failed pm => simp [handleApiCall, hrun, isRemoteSuccess]
    | parsed b =>
      cases ok with
      | false => simp [handleApiCall, hrun, isRemoteSuccess]
      | true =>
        have hgp : runOptimistic g c = p := hrun ▸ hp
        simp [handleApiCall, hp, hgp, isRemoteSuccess]

/-- optimistic_throw_containment_witness exercises the containment theorem
on a concrete throwing transform and a failing remote command. -/
theorem optimistic_throw_containment_witness :
    handleApiCall (some fun _ => TransformRun.thrown ⟨[], [], [{}]⟩) (.netFail "down") "ok"
        ⟨[{ id := "P1" }], [], []⟩
      = handleApiCall (some fun _ => TransformRun.ok ⟨[], [], [{}]⟩) (.netFail "down") "ok"
        ⟨[{ id := "P1" }], [], []⟩ ∧
    (handleApiCall (some fun _ => TransformRun.thrown ⟨[], [], [{}]⟩) (.netFail "down") "ok"
        ⟨[{ id := "P1" }], [], []⟩).final = ⟨[{ id := "P1" }], [], []⟩ := by
  have h := optimistic_throw_containment_spec
    (fun _ => TransformRun.thrown ⟨[], [], [{}]⟩)
    (fun _ => TransformRun.ok ⟨[], [], [{}]⟩)
    ⟨[{ id := "P1" }], [], []⟩ ⟨[], [], [{}]⟩ (.netFail "down") "ok" rfl rfl
  exact ⟨h.1, h.2.1 (by decide)⟩

/-- C6 counterexample: the claim requires that two records both lacking an
identifier never match, but matchTrainNumber compares canonical keys with
no non-emptiness requirement: a record with no identifier fields matches a
null target even though both canonical keys are empty. -/
theorem identity_matching_counterexample :
    extractTrainNo ({} : Train) = "" ∧ normalizeTrainNo .null = "" ∧
    matchTrainNumber ({} : Train) .null = true := by decide

/-- C6 amended: normalize maps undefined and null to the empty string and
coerces numbers to their string form, so equal logical ids yield equal
canonical keys; a record matches a target identifier exactly when their
canonical keys are equal, with no non-emptiness requirement (so two
identifier-less records do match); non-emptiness is enforced only in the
cached lookup, which never matches an empty target. -/
theorem identity_matching_amended :
    normalizeTrainNo .undef = "" ∧ normalizeTrainNo .null = "" ∧
    (∀ n : Int, normalizeTrainNo (.num n) = normalizeTrainNo (.str (toString n))) ∧
    (∀ (t : Train) (target : JsVal),
      matchTrainNumber t target = true ↔ extractTrainNo t = normalizeTrainNo target) ∧
    (∀ (c : Collections) (target : JsVal),
      normalizeTrainNo target = "" → lookupTrainByNumber c target = none) := by
  refine ⟨rfl, rfl, fun n => rfl, fun t target => ?_, fun c target h => ?_⟩
  · simp [matchTrainNumber]
  · simp [lookupTrainByNumber, h]

/-- identity_matching_amended_witness exercises the amended claim at
concrete inputs: a numeric identifier matches its string form, and the
cached lookup rejects an empty target. -/
theorem identity_matching_amended_witness :
    matchTrainNumber { trainNo := .num 123 } (.str "123") = true ∧
    lookupTrainByNumber ⟨[], [], [{}]⟩ .undef = none := by
  have h := identity_matching_amended
  exact ⟨(h.2.2.2.1 { trainNo := .num 123 } (.str "123")).mpr (by decide),
         h.2.2.2.2 ⟨[], [], [{}]⟩ .undef rfl⟩

/-- C8: a suggestion-expired event clears the tracked pending suggestion
and raises a transient warning exactly when its suggestion id equals the
tracked suggestion's id, and otherwise (non-matching id, or nothing
tracked) leaves the state untouched; a suggestion-accepted event clears
the tracked pending suggestion regardless of any id, raises a success
notification, and initiates a full authoritative refetch (the fetch epoch
advances). -/
theorem suggestion_lifecycle_spec (s : AppState) (sid : String)
    (payload : AcceptedPayload) :
    (∀ sug, s.autoSuggestion = some sug → sid = sug.suggestion_id →
      handleSuggestionExpired sid s
        = { s with autoSuggestion := none,
                   toasts := s.toasts ++ [.warning "Suggestion expired"] }) ∧
    (∀ sug, s.autoSuggestion = some sug → sid ≠ sug.suggestion_id →
      handleSuggestionExpired sid s = s) ∧
    (s.autoSuggestion = none → handleSuggestionExpired sid s = s) ∧
    ((handleSuggestionExpired sid s).autoSuggestion = none ↔
      (s.autoSuggestion = none ∨
        ∃ sug, s.autoSuggestion = some sug ∧ sid = sug.suggestion_id)) ∧
    (handleSuggestionAccepted payload s).autoSuggestion = none ∧
    (handleSuggestionAccepted payload s).latestFetchId = s.latestFetchId + 1 ∧
    (∃ msg, (handleSuggestionAccepted payload s).toasts = s.toasts ++ [.success msg]) := by
  refine ⟨?_, ?_, ?_, ?_, ?_, ?_, ?_⟩
  · intro sug hsug hid
    simp [handleSuggestionExpired, hsug, hid]
  · intro sug hsug hid
    simp [handleSuggestionExpired, hsug, hid]
  · intro hnone
    simp [handleSuggestionExpired, hnone]
  · cases hsug : s.autoSuggestion with
    | none => simp [handleSuggestionExpired, hsug]
    | some sug =>
      by_cases hid : sid = sug.suggestion_id
      · simp [handleSuggestionExpired, hsug, hid]
      · simp [handleSuggestionExpired, hsug, hid]
  · simp [handleSuggestionAccepted, beginFetch]
  · simp [handleSuggestionAccepted, beginFetch]
  · refine ⟨"Suggestion accepted: Train " ++ payload.trainNo ++ " assigned to "
      ++ String.intercalate ", " payload.platforms, ?_⟩
    simp [handleSuggestionAccepted, beginFetch]

/-- suggestion_lifecycle_witness exercises the lifecycle theorem on a
concrete tracked suggestion: a matching expiry clears it, a non-matching
expiry leaves it untouched, and an acceptance clears it and advances the
fetch epoch. -/
theorem suggestion_lifecycle_witness :
    handleSuggestionExpired "s1"
        { autoSuggestion := some { suggestion_id := "s1" } }
      = { autoSuggestion := none, toasts := [.warning "Suggestion expired"] } ∧
    handleSuggestionExpired "s2"
        { autoSuggestion := some { suggestion_id := "s1" } }
      = { autoSuggestion := some { suggestion_id := "s1" } } ∧
    (handleSuggestionAccepted {} { autoSuggestion := some { suggestion_id := "s1" } }).autoSuggestion
      = none ∧
    (handleSuggestionAccepted {} { autoSuggestion := some { suggestion_id := "s1" } }).latestFetchId
      = 1 := by
  have h1 := suggestion_lifecycle_spec
    { autoSuggestion := some { suggestion_id := "s1" } } "s1" {}
  have h2 := suggestion_lifecycle_spec
    { autoSuggestion := some { suggestion_id := "s1" } } "s2" {}
  refine ⟨?_, h2.2.1 { suggestion_id := "s1" } rfl (by decide), h1.2.2.2.2.1, h1.2.2.2.2.2.1⟩
  have := h1.1 { suggestion_id := "s1" } rfl rfl
  simpa using this

/-- C7: toggling maintenance on a resource flips its maintenance flag,
forcing occupancy off and clearing the occupant when the result is
under-maintenance and leaving occupancy untouched when the result is
available; and the invariant that a resource under maintenance is never
simultaneously occupied is preserved by every locally applied optimistic
operation. -/
theorem maintenance_toggle_spec (c : Collections) (platformId : String)
    (p : Platform) (hp : p ∈ c.platforms) (hid : p.id = platformId)
    (hne : platformId ≠ "") :
    (p.isUnderMaintenance = false →
      ({ p with isUnderMaintenance := true, isOccupied := false,
                trainDetails := none } : Platform)
        ∈ (toggleMaintenanceOptimistic platformId c).platforms) ∧
    (p.isUnderMaintenance = true →
      ({ p with isUnderMaintenance := false } : Platform)
        ∈ (toggleMaintenanceOptimistic platformId c).platforms) ∧
    (maintenanceInvariant c.platforms →
      maintenanceInvariant (toggleMaintenanceOptimistic platformId c).platforms) ∧
    (∀ trainNo platformIds actualArrival incomingLine now,
      maintenanceInvariant c.platforms →
      maintenanceInvariant
        (assignPlatformOptimistic trainNo platformIds actualArrival incomingLine now c).platforms) ∧
    (∀ pid iL tn, maintenanceInvariant c.platforms →
      maintenanceInvariant (assignFreightToPlatformOptimistic pid iL tn c).platforms) ∧
    (∀ tid iL tn, maintenanceInvariant c.platforms →
      maintenanceInvariant (assignFreightToTrackOptimistic tid iL tn c).platforms) ∧
    (∀ pid, maintenanceInvariant c.platforms →
      maintenanceInvariant (unassignPlatformOptimistic pid c).platforms) ∧
    (∀ pid, maintenanceInvariant c.platforms →
      maintenanceInvariant (departTrainOptimistic pid c).platforms) ∧
    (∀ tn iL aA md i1 i2,
      (addToWaitingListOptimistic tn iL aA md i1 i2 c).platforms = c.platforms) ∧
    (∀ tn, (removeFromWaitingListOptimistic tn c).platforms = c.platforms) ∧
    (∀ row, (addTrainOptimistic row c).platforms = c.platforms) ∧
    (∀ tn, (deleteTrainOptimistic tn c).platforms = c.platforms) := by
  have hmem : p.id ∈ toIdArray [platformId] := by
    simp [toIdArray, hne, hid]
  refine ⟨?_, ?_, ?_, ?_, ?_, ?_, ?_, ?_, ?_, ?_, ?_, ?_⟩
  · intro hm
    have h := mem_applyPlatformChanges_target [platformId]
      (fun q =>
        let nextMaintenance := !q.isUnderMaintenance
        { q with
          isUnderMaintenance := nextMaintenance,
          isOccupied := if nextMaintenance then false else q.isOccupied,
          trainDetails := if nextMaintenance then none else q.trainDetails })
      c.platforms p hp hmem
    simpa [toggleMaintenanceOptimistic, hm] using h
  · intro hm
    have h := mem_applyPlatformChanges_target [platformId]
      (fun q =>
        let nextMaintenance := !q.isUnderMaintenance
        { q with
          isUnderMaintenance := nextMaintenance,
          isOccupied := if nextMaintenance then false else q.isOccupied,
          trainDetails := if nextMaintenance then none else q.trainDetails })
      c.platforms p hp hmem
    simpa [toggleMaintenanceOptimistic, hm] using h
  · intro hinv
    apply applyPlatformChanges_pres _ _ _ _ hinv
    intro q
    by_cases hq : q.isUnderMaintenance <;> simp [hq]
  · intro trainNo platformIds actualArrival incomingLine now hinv
    apply applyPlatformChanges_pres _ _ _ _ hinv
    intro q
    simp
  · intro pid iL tn hinv
    apply applyPlatformChanges_pres _ _ _ _ hinv
    intro q
    simp
  · intro tid iL tn hinv
    apply applyPlatformChanges_pres _ _ _ _ hinv
    intro q
    simp
  · intro pid hinv
    apply applyPlatformChanges_pres _ _ _ _ hinv
    intro q
    simp
  · intro pid hinv
    apply applyPlatformChanges_pres _ _ _ _ hinv
    intro q
    simp
  · intro tn iL aA md i1 i2
    rfl
  · intro tn
    rfl
  · intro row
    rfl
  · intro tn
    rfl

/-- maintenance_toggle_witness exercises the toggle theorem on a concrete
occupied platform and on a platform already under maintenance. -/
theorem maintenance_toggle_witness :
    ({ id := "P1", isUnderMaintenance := true, isOccupied := false,
       trainDetails := none } : Platform)
      ∈ (toggleMaintenanceOptimistic "P1" ⟨[{ id := "P1" }], [], []⟩).platforms ∧
    ({ id := "P2", isUnderMaintenance := false } : Platform)
      ∈ (toggleMaintenanceOptimistic "P2"
          ⟨[{ id := "P2", isUnderMaintenance := true }], [], []⟩).platforms ∧
    maintenanceInvariant
      (toggleMaintenanceOptimistic "P1" ⟨[{ id := "P1" }], [], []⟩).platforms := by
  have h1 := maintenance_toggle_spec ⟨[{ id := "P1" }], [], []⟩ "P1"
    { id := "P1" } (by simp) rfl (by decide)
  have h2 := maintenance_toggle_spec ⟨[{ id := "P2", isUnderMaintenance := true }], [], []⟩
    "P2" { id := "P2", isUnderMaintenance := true } (by simp) rfl (by decide)
  exact ⟨h1.1 rfl, h2.2.1 rfl, h1.2.2.1 (by intro q hq hm; simp at hq; simp [hq] at hm)⟩

/-- C3: assigning train T to target resource ids immediately marks each
targeted platform occupied with maintenance forced off, stores the
occupant built by buildTrainDetails (explicit overrides first, then the
cached roster or waiting-list record, then a synthetic placeholder name)
with the pairing metadata for that id, sets the actual arrival to the
provided time or the formatted current wall-clock, removes T by canonical
identity from both the arriving roster and the waiting list, and leaves
every non-targeted platform unchanged. -/
theorem assign_transform_spec (c : Collections) (trainNo : JsVal)
    (platformIds : List String) (actualArrival incomingLine : Option String)
    (now : String) (p : Platform) (hp : p ∈ c.platforms) :
    (p.id ∈ toIdArray platformIds →
      ({ p with isOccupied := true, isUnderMaintenance := false,
                trainDetails := some (buildTrainDetails c trainNo
                  { actualArrival := some (jsOrD actualArrival now),
                    incomingLine := incomingLine }
                  (some ((buildLinkedMeta (toIdArray platformIds) p.id).getD ⟨none, true⟩))),
                actualArrival := some (jsOrD actualArrival now) } : Platform)
        ∈ (assignPlatformOptimistic trainNo platformIds actualArrival incomingLine now c).platforms) ∧
    (p.id ∉ toIdArray platformIds →
      p ∈ (assignPlatformOptimistic trainNo platformIds actualArrival incomingLine now c).platforms) ∧
    (∀ t ∈ (assignPlatformOptimistic trainNo platformIds actualArrival incomingLine now c).arrivingTrains,
      matchTrainNumber t trainNo = false) ∧
    (∀ t ∈ c.arrivingTrains, matchTrainNumber t trainNo = false →
      t ∈ (assignPlatformOptimistic trainNo platformIds actualArrival incomingLine now c).arrivingTrains) ∧
    (∀ t ∈ (assignPlatformOptimistic trainNo platformIds actualArrival incomingLine now c).waitingList,
      matchTrainNumber t trainNo = false) ∧
    (∀ t ∈ c.waitingList, matchTrainNumber t trainNo = false →
      t ∈ (assignPlatformOptimistic trainNo platformIds actualArrival incomingLine now c).waitingList) := by
  refine ⟨?_, ?_, ?_, ?_, ?_, ?_⟩
  · intro hin
    have hin' : p.id ∈ toIdArray (toIdArray platformIds) := by
      rwa [toIdArray_idem]
    have h := mem_applyPlatformChanges_target (toIdArray platformIds)
      (fun q =>
        let m := ((buildLinkedMeta (toIdArray platformIds)) q.id).getD ⟨none, true⟩
        { q with
          isOccupied := true,
          isUnderMaintenance := false,
          trainDetails := some (buildTrainDetails c trainNo
            { actualArrival := some (jsOrD actualArrival now), incomingLine := incomingLine }
            (some m)),
          actualArrival := some (jsOrD actualArrival now) })
      c.platforms p hp hin'
    simpa [assignPlatformOptimistic] using h
  · intro hout
    have hout' : p.id ∉ toIdArray (toIdArray platformIds) := by
      rwa [toIdArray_idem]
    have h := mem_applyPlatformChanges_other (toIdArray platformIds)
      (fun q =>
        let m := ((buildLinkedMeta (toIdArray platformIds)) q.id).getD ⟨none, true⟩
        { q with
          isOccupied := true,
          isUnderMaintenance := false,
          trainDetails := some (buildTrainDetails c trainNo
            { actualArrival := some (jsOrD actualArrival now), incomingLine := incomingLine }
            (some m)),
          actualArrival := some (jsOrD actualArrival now) })
      c.platforms p hp hout'
    simpa [assignPlatformOptimistic] using h
  · intro t ht
    simp only [assignPlatformOptimistic, List.mem_filter] at ht
    simpa using ht.2
  · intro t ht hm
    simp only [assignPlatformOptimistic, List.mem_filter]
    exact ⟨ht, by simp [hm]⟩
  · intro t ht
    simp only [assignPlatformOptimistic, List.mem_filter] at ht
    simpa using ht.2
  · intro t ht hm
    simp only [assignPlatformOptimistic, List.mem_filter]
    exact ⟨ht, by simp [hm]⟩

/-- assign_transform_witness exercises assign_transform_spec on the spec's
end-to-end scenario: the roster holds train 123 named Express; assigning
it to Platform 1 at 10:05 yields an occupied Platform 1 whose occupant is
the cached Express record with arrival 10:05, and the roster no longer
holds 123. -/
theorem assign_transform_witness :
    ({ id := "Platform 1", isOccupied := true, isUnderMaintenance := false,
       trainDetails := some { trainNo := .str "123", name := "Express",
                              incomingLine := none, incoming_line := none,
                              actualArrival := some "10:05", isTerminating := false,
                              linkedPlatformId := none, isPrimary := some true },
       actualArrival := some "10:05" } : Platform)
      ∈ (assignPlatformOptimistic (.str "123") ["Platform 1"] (some "10:05") none "09:00"
          ⟨[{ id := "Platform 1" }], [{ trainNo := .str "123", name := some "Express" }], []⟩).platforms ∧
    (assignPlatformOptimistic (.str "123") ["Platform 1"] (some "10:05") none "09:00"
        ⟨[{ id := "Platform 1" }], [{ trainNo := .str "123", name := some "Express" }], []⟩).arrivingTrains
      = [] := by
  have h := assign_transform_spec
    ⟨[{ id := "Platform 1" }], [{ trainNo := .str "123", name := some "Express" }], []⟩
    (.str "123") ["Platform 1"] (some "10:05") none "09:00" { id := "Platform 1" } (by simp)
  have h1 := h.1 (by decide)
  constructor
  · have he :
        ({ id := "Platform 1", isOccupied := true, isUnderMaintenance := false,
           trainDetails := some { trainNo := .str "123", name := "Express",
                                  incomingLine := none, incoming_line := none,
                                  actualArrival := some "10:05", isTerminating := false,
                                  linkedPlatformId := none, isPrimary := some true },
           actualArrival := some "10:05" } : Platform)
          = ({ id := "Platform 1", isOccupied := true, isUnderMaintenance := false,
               trainDetails := some (buildTrainDetails
                 ⟨[{ id := "Platform 1" }], [{ trainNo := .str "123", name := some "Express" }], []⟩
                 (.str "123")
                 { actualArrival := some (jsOrD (some "10:05") "09:00"), incomingLine := none }
                 (some ((buildLinkedMeta (toIdArray ["Platform 1"]) "Platform 1").getD ⟨none, true⟩))),
               actualArrival := some (jsOrD (some "10:05") "09:00") } : Platform) := by
      decide
    rw [he]
    exact h1
  · decide

/-- C9: adding a train to the waiting list replaces an existing entry with
matching canonical identity in place with the newly constructed entry
(fresh enqueue timestamp) rather than appending a second one, appends the
entry when no match exists, removes the train from the arriving roster,
and therefore adding the same train twice from a list without it yields
exactly one matching entry, carrying the latest metadata. -/
theorem waiting_list_add_spec (c : Collections) (trainNo : JsVal)
    (iL aA : Option String) (md : Option Train) (nowIso nowHm : String)
    (iL2 aA2 : Option String) (md2 : Option Train) (nowIso2 nowHm2 : String)
    (hTn : nullish trainNo = false) :
    (mkWaitingEntry trainNo iL aA md nowIso nowHm c).enqueued_at = some nowIso ∧
    matchTrainNumber (mkWaitingEntry trainNo iL aA md nowIso nowHm c) trainNo = true ∧
    ((∃ t ∈ c.waitingList, matchTrainNumber t trainNo = true) →
      (addToWaitingListOptimistic trainNo iL aA md nowIso nowHm c).waitingList
        = c.waitingList.map (fun t => if matchTrainNumber t trainNo
            then mkWaitingEntry trainNo iL aA md nowIso nowHm c else t) ∧
      (addToWaitingListOptimistic trainNo iL aA md nowIso nowHm c).waitingList.length
        = c.waitingList.length) ∧
    ((∀ t ∈ c.waitingList, matchTrainNumber t trainNo = false) →
      (addToWaitingListOptimistic trainNo iL aA md nowIso nowHm c).waitingList
        = c.waitingList ++ [mkWaitingEntry trainNo iL aA md nowIso nowHm c]) ∧
    (addToWaitingListOptimistic trainNo iL aA md nowIso nowHm c).arrivingTrains
      = c.arrivingTrains.filter (fun t => !(matchTrainNumber t trainNo)) ∧
    ((∀ t ∈ c.waitingList, matchTrainNumber t trainNo = false) →
      ((addToWaitingListOptimistic trainNo iL2 aA2 md2 nowIso2 nowHm2
          (addToWaitingListOptimistic trainNo iL aA md nowIso nowHm c)).waitingList.filter
        (fun t => matchTrainNumber t trainNo))
        = [mkWaitingEntry trainNo iL2 aA2 md2 nowIso2 nowHm2
            (addToWaitingListOptimistic trainNo iL aA md nowIso nowHm c)]) := by
  have hwe : ∀ (iLx aAx : Option String) (mdx : Option Train) (isox hmx : String)
      (cx : Collections),
      matchTrainNumber (mkWaitingEntry trainNo iLx aAx mdx isox hmx cx) trainNo = true := by
    intro iLx aAx mdx isox hmx cx
    simp [matchTrainNumber, extractTrainNo, mkWaitingEntry, jsqq, hTn]
  refine ⟨rfl, hwe iL aA md nowIso nowHm c, ?_, ?_, rfl, ?_⟩
  · intro hex
    have hany : c.waitingList.any (fun t => matchTrainNumber t trainNo) = true := by
      obtain ⟨t, ht, hmt⟩ := hex
      exact List.any_eq_true.mpr ⟨t, ht, hmt⟩
    constructor
    · simp [addToWaitingListOptimistic, hany]
    · simp [addToWaitingListOptimistic, hany]
  · intro hall
    have hany : c.waitingList.any (fun t => matchTrainNumber t trainNo) = false := by
      simp only [List.any_eq_false]
      intro t ht
      simp [hall t ht]
    simp [addToWaitingListOptimistic, hany]
  · intro hall
    have hany : (c.waitingList.any fun t => matchTrainNumber t trainNo) = false := by
      simp only [List.any_eq_false]
      intro t ht
      simp [hall t ht]
    set r1 := addToWaitingListOptimistic trainNo iL aA md nowIso nowHm c with hr1def
    have hr1 : r1.waitingList
        = c.waitingList ++ [mkWaitingEntry trainNo iL aA md nowIso nowHm c] := by
      rw [hr1def]
      simp [addToWaitingListOptimistic, hany]
    have hany2 : (r1.waitingList.any fun t => matchTrainNumber t trainNo) = true := by
      rw [hr1]
      exact List.any_eq_true.mpr ⟨mkWaitingEntry trainNo iL aA md nowIso nowHm c,
        by simp, hwe iL aA md nowIso nowHm c⟩
    have houter : (addToWaitingListOptimistic trainNo iL2 aA2 md2 nowIso2 nowHm2 r1).waitingList
        = r1.waitingList.map (fun t => if matchTrainNumber t trainNo
            then mkWaitingEntry trainNo iL2 aA2 md2 nowIso2 nowHm2 r1 else t) := by
      simp [addToWaitingListOptimistic, hany2]
    rw [houter, hr1]
    rw [List.map_append, List.filter_append]
    have hmapid : c.waitingList.map (fun t => if matchTrainNumber t trainNo
        then mkWaitingEntry trainNo iL2 aA2 md2 nowIso2 nowHm2 r1 else t)
        = c.waitingList := by
      conv_rhs => rw [← List.map_id c.waitingList]
      apply List.map_congr_left
      intro t ht
      simp [hall t ht]
    rw [hmapid]
    have hfilnil : c.waitingList.filter (fun t => matchTrainNumber t trainNo) = [] := by
      rw [List.filter_eq_nil_iff]
      intro t ht
      simp [hall t ht]
    rw [hfilnil]
    simp [hwe iL aA md nowIso nowHm c, hwe iL2 aA2 md2 nowIso2 nowHm2 r1]

/-- waiting_list_add_witness exercises the waiting-list theorem on a
concrete roster train added twice: one matching entry remains, carrying
the latest enqueue timestamp, and the roster no longer holds the train. -/
theorem waiting_list_add_witness :
    ((addToWaitingListOptimistic (.str "123") none none none "iso2" "10:00"
        (addToWaitingListOptimistic (.str "123") none none none "iso1" "09:00"
          ⟨[], [{ trainNo := .str "123", name := some "Express" }], []⟩)).waitingList.filter
      (fun t => matchTrainNumber t (.str "123")))
      = [mkWaitingEntry (.str "123") none none none "iso2" "10:00"
          (addToWaitingListOptimistic (.str "123") none none none "iso1" "09:00"
            ⟨[], [{ trainNo := .str "123", name := some "Express" }], []⟩)] ∧
    (mkWaitingEntry (.str "123") none none none "iso1" "09:00"
      ⟨[], [{ trainNo := .str "123", name := some "Express" }], []⟩).enqueued_at = some "iso1" ∧
    (addToWaitingListOptimistic (.str "123") none none none "iso1" "09:00"
      ⟨[], [{ trainNo := .str "123", name := some "Express" }], []⟩).arrivingTrains = [] := by
  have h := waiting_list_add_spec
    ⟨[], [{ trainNo := .str "123", name := some "Express" }], []⟩
    (.str "123") none none none "iso1" "09:00" none none none "iso2" "10:00" (by decide)
  refine ⟨h.2.2.2.2.2 (by intro t ht; simp at ht), h.1, ?_⟩
  have h5 := h.2.2.2.2.1
  rw [h5]
  decide

/-- C5: a depart on platform P clears P plus its stored linked platform
when P is occupied with a truthy pairing link; otherwise, when P's
occupant has a truthy train identity, P plus the first other occupied
platform holding the same train, if one exists; otherwise P alone — and P
alone when P is unknown, not occupied, or has no occupant record. Every
platform in the resolved set is cleared (occupied off, occupant and
arrival nulled), every other platform and the two train lists are left
unchanged. -/
theorem paired_departure_spec (c : Collections) (platformId : String) :
    (c.platforms.find? (fun p => p.id == platformId) = none →
      resolveLinkedDepartureIds c.platforms platformId = [platformId]) ∧
    (∀ primary, c.platforms.find? (fun p => p.id == platformId) = some primary →
      primary.isOccupied = false →
      resolveLinkedDepartureIds c.platforms platformId = [platformId]) ∧
    (∀ primary, c.platforms.find? (fun p => p.id == platformId) = some primary →
      primary.isOccupied = true → primary.trainDetails = none →
      resolveLinkedDepartureIds c.platforms platformId = [platformId]) ∧
    (∀ primary td lid, c.platforms.find? (fun p => p.id == platformId) = some primary →
      primary.isOccupied = true → primary.trainDetails = some td →
      td.linkedPlatformId = some lid → lid ≠ "" →
      resolveLinkedDepartureIds c.platforms platformId = [platformId, lid]) ∧
    (∀ primary td, c.platforms.find? (fun p => p.id == platformId) = some primary →
      primary.isOccupied = true → primary.trainDetails = some td →
      jsOr td.linkedPlatformId none = none → jsTruthy td.trainNo = false →
      resolveLinkedDepartureIds c.platforms platformId = [platformId]) ∧
    (∀ primary td partner, c.platforms.find? (fun p => p.id == platformId) = some primary →
      primary.isOccupied = true → primary.trainDetails = some td →
      jsOr td.linkedPlatformId none = none → jsTruthy td.trainNo = true →
      sameTrainPartner c.platforms platformId td = some partner →
      resolveLinkedDepartureIds c.platforms platformId = [platformId, partner.id]) ∧
    (∀ primary td, c.platforms.find? (fun p => p.id == platformId) = some primary →
      primary.isOccupied = true → primary.trainDetails = some td →
      jsOr td.linkedPlatformId none = none → jsTruthy td.trainNo = true →
      sameTrainPartner c.platforms platformId td = none →
      resolveLinkedDepartureIds c.platforms platformId = [platformId]) ∧
    (∀ q ∈ c.platforms,
      q.id ∈ toIdArray (resolveLinkedDepartureIds c.platforms platformId) →
      ({ q with isOccupied := false, trainDetails := none, actualArrival := none } : Platform)
        ∈ (departTrainOptimistic platformId c).platforms) ∧
    (∀ q ∈ c.platforms,
      q.id ∉ toIdArray (resolveLinkedDepartureIds c.platforms platformId) →
      q ∈ (departTrainOptimistic platformId c).platforms) ∧
    (departTrainOptimistic platformId c).arrivingTrains = c.arrivingTrains ∧
    (departTrainOptimistic platformId c).waitingList = c.waitingList := by
  refine ⟨?_, ?_, ?_, ?_, ?_, ?_, ?_, ?_, ?_, rfl, rfl⟩
  · intro hfind
    simp [resolveLinkedDepartureIds, hfind]
  · intro primary hfind hocc
    simp [resolveLinkedDepartureIds, hfind, hocc]
  · intro primary hfind hocc htd
    simp [resolveLinkedDepartureIds, hfind, hocc, htd]
  · intro primary td lid hfind hocc htd hlid hlne
    simp [resolveLinkedDepartureIds, hfind, hocc, htd, hlid, jsOr, hlne]
  · intro primary td hfind hocc htd hlink htn
    simp [resolveLinkedDepartureIds, hfind, hocc, htd, hlink, htn]
  · intro primary td partner hfind hocc htd hlink htn hpart
    simp [resolveLinkedDepartureIds, hfind, hocc, htd, hlink, htn, hpart]
  · intro primary td hfind hocc htd hlink htn hpart
    simp [resolveLinkedDepartureIds, hfind, hocc, htd, hlink, htn, hpart]
  · intro q hq hid
    have h := mem_applyPlatformChanges_target
      (resolveLinkedDepartureIds c.platforms platformId)
      (fun p => { p with isOccupied := false, trainDetails := none, actualArrival := none })
      c.platforms q hq hid
    simpa [departTrainOptimistic] using h
  · intro q hq hid
    have h := mem_applyPlatformChanges_other
      (resolveLinkedDepartureIds c.platforms platformId)
      (fun p => { p with isOccupied := false, trainDetails := none, actualArrival := none })
      c.platforms q hq hid
    simpa [departTrainOptimistic] using h

/-- paired_departure_witness exercises the departure theorem on the spec's
scenario: P1 primary-linked to P3, both occupied by T1; departing P1
resolves to both ids and clears both platforms. -/
theorem paired_departure_witness :
    resolveLinkedDepartureIds
        [{ id := "P1", isOccupied := true,
           trainDetails := some { trainNo := .str "T1", name := "T1",
                                  incomingLine := none, incoming_line := none,
                                  actualArrival := none, isTerminating := false,
                                  linkedPlatformId := some "P3", isPrimary := some true } },
         { id := "P3", isOccupied := true,
           trainDetails := some { trainNo := .str "T1", name := "T1",
                                  incomingLine := none, incoming_line := none,
                                  actualArrival := none, isTerminating := false,
                                  linkedPlatformId := none, isPrimary := some false } }] "P1"
      = ["P1", "P3"] ∧
    ({ id := "P3", isOccupied := false, trainDetails := none, actualArrival := none } : Platform)
      ∈ (departTrainOptimistic "P1"
          ⟨[{ id := "P1", isOccupied := true,
              trainDetails := some { trainNo := .str "T1", name := "T1",
                                     incomingLine := none, incoming_line := none,
                                     actualArrival := none, isTerminating := false,
                                     linkedPlatformId := some "P3", isPrimary := some true } },
            { id := "P3", isOccupied := true,
              trainDetails := some { trainNo := .str "T1", name := "T1",
                                     incomingLine := none, incoming_line := none,
                                     actualArrival := none, isTerminating := false,
                                     linkedPlatformId := none, isPrimary := some false } }],
            [], []⟩).platforms := by
  have h := paired_departure_spec
    ⟨[{ id := "P1", isOccupied := true,
        trainDetails := some { trainNo := .str "T1", name := "T1",
                               incomingLine := none, incoming_line := none,
                               actualArrival := none, isTerminating := false,
                               linkedPlatformId := some "P3", isPrimary := some true } },
      { id := "P3", isOccupied := true,
        trainDetails := some { trainNo := .str "T1", name := "T1",
                               incomingLine := none, incoming_line := none,
                               actualArrival := none, isTerminating := false,
                               linkedPlatformId := none, isPrimary := some false } }],
      [], []⟩ "P1"
  have hres := h.2.2.2.1
    { id := "P1", isOccupied := true,
      trainDetails := some { trainNo := .str "T1", name := "T1",
                             incomingLine := none, incoming_line := none,
                             actualArrival := none, isTerminating := false,
                             linkedPlatformId := some "P3", isPrimary := some true } }
    { trainNo := .str "T1", name := "T1",
      incomingLine := none, incoming_line := none,
      actualArrival := none, isTerminating := false,
      linkedPlatformId := some "P3", isPrimary := some true }
    "P3" (by decide) rfl rfl rfl (by decide)
  refine ⟨hres, ?_⟩
  have hmem := h.2.2.2.2.2.2.2.1
    { id := "P3", isOccupied := true,
      trainDetails := some { trainNo := .str "T1", name := "T1",
                             incomingLine := none, incoming_line := none,
                             actualArrival := none, isTerminating := false,
                             linkedPlatformId := none, isPrimary := some false } }
    (by simp) (by rw [hres]; decide)
  simpa using hmem

/-- linkedMetaWrite_not_mem: keys never visited by the forEach loop keep
their prior map value. -/
lemma linkedMetaWrite_not_mem (allIds : List String) (rest : List String) (i : Nat)
    (m : String → Option PairMeta) (k : String) (hk : k ∉ rest) :
    linkedMetaWrite allIds rest i m k = m k := by
  induction rest generalizing i m with
  | nil => rfl
  | cons a t ih =>
    have hka : k ≠ a := fun h => hk (h ▸ List.mem_cons_self a t)
    have hkt : k ∉ t := fun h => hk (List.mem_cons_of_mem a h)
    simp only [linkedMetaWrite]
    rw [ih (i + 1) _ hkt]
    simp [hka]

/-- linkedMetaWrite_head: the entry written for the head key survives when
the key does not recur later in the loop. -/
lemma linkedMetaWrite_head (allIds : List String) (a : String) (t : List String)
    (i : Nat) (m : String → Option PairMeta) (ha : a ∉ t) :
    linkedMetaWrite allIds (a :: t) i m a = some ⟨jsPartnerOf allIds a, i == 0⟩ := by
  simp only [linkedMetaWrite]
  rw [linkedMetaWrite_not_mem allIds t (i + 1) _ a ha]
  simp

/-- linkedMetaWrite_mem_pos: a key first visited at a positive index ends
up with a non-primary entry when keys are distinct. -/
lemma linkedMetaWrite_mem_pos (allIds : List String) (rest : List String) (i : Nat)
    (m : String → Option PairMeta) (k : String) (hk : k ∈ rest) (hnd : rest.Nodup)
    (hi : 0 < i) :
    linkedMetaWrite allIds rest i m k = some ⟨jsPartnerOf allIds k, false⟩ := by
  induction rest generalizing i m with
  | nil => cases hk
  | cons a t ih =>
    rcases List.mem_cons.mp hk with hka | hkt
    · subst hka
      rw [linkedMetaWrite_head allIds k t i m (List.nodup_cons.mp hnd).1]
      have hz : (i == 0) = false := by
        simp only [beq_eq_false_iff_ne, ne_eq]
        omega
      rw [hz]
    · simp only [linkedMetaWrite]
      exact ih (i + 1) _ hkt (List.nodup_cons.mp hnd).2 (by omega)

/-- jsPartnerOf_mem: in a duplicate-free list of at least two non-empty
ids, every id has a partner: another id of the list. -/
lemma jsPartnerOf_mem (ids : List String) (k : String) (hlen : 1 < ids.length)
    (hnd : ids.Nodup) (hne : "" ∉ ids) (hk : k ∈ ids) :
    ∃ j, jsPartnerOf ids k = some j ∧ j ∈ ids ∧ j ≠ k := by
  have hex : ∃ x ∈ ids, (x != k) = true := by
    match ids, hlen, hnd with
    | a :: b :: t, _, hnd =>
      by_cases hak : a = k
      · subst hak
        have hab : a ≠ b := by
          have := (List.nodup_cons.mp hnd).1
          intro h
          exact this (h ▸ List.mem_cons_self b t)
        exact ⟨b, by simp, by simp [bne_iff_ne]; exact fun h => hab h.symm⟩
      · exact ⟨a, by simp, by simp [bne_iff_ne, hak]⟩
  have hsome : (ids.find? (fun o => o != k)).isSome := by
    rw [List.find?_isSome]
    exact hex
  obtain ⟨j, hj⟩ := Option.isSome_iff_exists.mp hsome
  have hjk : j ≠ k := by
    have := List.find?_some hj
    simpa [bne_iff_ne] using this
  have hjm : j ∈ ids := List.mem_of_find?_eq_some hj
  have hjne : j ≠ "" := fun h => hne (h ▸ hjm)
  refine ⟨j, ?_, hjm, hjk⟩
  simp [jsPartnerOf, hj, hjne]

/-- C4: pairing derivation over a duplicate-free list of non-empty target
ids: a single id is primary with no link; with two or more ids exactly the
first id in the given order is primary and every id's link points to
another id of the set; in the two-id case each id points to the other. -/
theorem pairing_derivation_spec (ids : List String) (hnd : ids.Nodup)
    (hne : "" ∉ ids) :
    (∀ x, ids = [x] → buildLinkedMeta ids x = some ⟨none, true⟩) ∧
    (1 < ids.length → ∀ pid ∈ ids,
      ∃ m, buildLinkedMeta ids pid = some m ∧
        (m.isPrimary = true ↔ ids.head? = some pid) ∧
        ∃ j, m.linkedPlatformId = some j ∧ j ∈ ids ∧ j ≠ pid) ∧
    (∀ x y, ids = [x, y] →
      buildLinkedMeta ids x = some ⟨some y, true⟩ ∧
      buildLinkedMeta ids y = some ⟨some x, false⟩) := by
  refine ⟨?_, ?_, ?_⟩
  · intro x hx
    subst hx
    simp [buildLinkedMeta]
  · intro hlen pid hpid
    obtain ⟨j, hj, hjm, hjk⟩ := jsPartnerOf_mem ids pid hlen hnd hne hpid
    have hunf : buildLinkedMeta ids = linkedMetaWrite ids ids 0 (fun _ => none) := by
      simp [buildLinkedMeta, hlen]
    match ids, hlen, hnd, hpid, hunf with
    | a :: t, _, hnd, hpid, hunf =>
      rcases List.mem_cons.mp hpid with hpa | hpt
      · subst hpa
        refine ⟨⟨jsPartnerOf (pid :: t) pid, true⟩, ?_, by simp, j, ?_, hjm, hjk⟩
        · rw [hunf, linkedMetaWrite_head (pid :: t) pid t 0 _ (List.nodup_cons.mp hnd).1]
          simp
        · simpa using hj
      · have hap : a ≠ pid := by
          intro h
          exact (List.nodup_cons.mp hnd).1 (h ▸ hpt)
        refine ⟨⟨jsPartnerOf (a :: t) pid, false⟩, ?_, by simp [hap], j, ?_, hjm, hjk⟩
        · rw [hunf]
          simp only [linkedMetaWrite]
          exact linkedMetaWrite_mem_pos (a :: t) t 1 _ pid hpt
            (List.nodup_cons.mp hnd).2 (by omega)
        · simpa using hj
  · intro x y hxy
    subst hxy
    have hxyne : x ≠ y := by
      have := (List.nodup_cons.mp hnd).1
      intro h
      exact this (h ▸ List.mem_cons_self y [])
    have hxe : x ≠ "" := fun h => hne (h ▸ List.mem_cons_self x [y])
    have hye : y ≠ "" := fun h => hne (by rw [← h]; exact List.mem_cons_of_mem x (List.mem_cons_self y []))
    have hunf : buildLinkedMeta [x, y] = linkedMetaWrite [x, y] [x, y] 0 (fun _ => none) := by
      simp [buildLinkedMeta]
    have hyx : (y != x) = true := by
      simp only [bne_iff_ne, ne_eq]
      exact fun h => hxyne h.symm
    have hxy' : (x != y) = true := by
      simp only [bne_iff_ne, ne_eq]
      exact hxyne
    have hpx : jsPartnerOf [x, y] x = some y := by
      have hfx : List.find? (fun o => o != x) [x, y] = some y := by
        simp [List.find?, hyx]
      simp [jsPartnerOf, hfx, hye]
    have hpy : jsPartnerOf [x, y] y = some x := by
      have hfy : List.find? (fun o => o != y) [x, y] = some x := by
        simp [List.find?, hxy']
      simp [jsPartnerOf, hfy, hxe]
    constructor
    · rw [hunf, linkedMetaWrite_head [x, y] x [y] 0 _ (by simp [hxyne])]
      rw [hpx]
      rfl
    · rw [hunf]
      simp only [linkedMetaWrite]
      simp [hpy]

/-- pairing_derivation_witness exercises the pairing theorem on the spec's
examples: ids P1 and P3 pair mutually with P1 primary, and a lone P5 is
primary with no link. -/
theorem pairing_derivation_witness :
    buildLinkedMeta ["P1", "P3"] "P1" = some ⟨some "P3", true⟩ ∧
    buildLinkedMeta ["P1", "P3"] "P3" = some ⟨some "P1", false⟩ ∧
    buildLinkedMeta ["P5"] "P5" = some ⟨none, true⟩ := by
  have h2 := pairing_derivation_spec ["P1", "P3"] (by decide) (by decide)
  have h1 := pairing_derivation_spec ["P5"] (by decide) (by decide)
  have hpair := h2.2.2 "P1" "P3" rfl
  exact ⟨hpair.1, hpair.2, h1.1 "P5" rfl⟩
